import Mathlib

/-
Verification of the CFStream byte-stream endpoint
(src/core/lib/iomgr/endpoint_cfstream.cc).

The endpoint is embedded shallowly: the mutable CFStreamEndpoint struct
becomes a Lean structure, and each C function becomes a Lean function
from the pre-state to the post-state paired with a trace of externally
visible events (callback scheduling, ref and unref, timer operations,
transport interactions), listed in execution order.  External
collaborators (the CFStream transport, the timer service, the stream
notifier, the resource quota) appear as parameters and as trace events;
the outcome of a transfer attempt (the return value of CFReadStreamRead
or CFWriteStreamWrite together with the copied stream error) is an
explicit argument of the action functions.
-/

set_option maxHeartbeats 1000000

/-- A byte of transport payload. -/
abbrev Byte := Nat

/-- Modelled from the spec: a grpc error value as the endpoint uses it.
An error is either the distinguished no-error value GRPC_ERROR_NONE or
an error object carrying a description, an optional integer attribute
GRPC_ERROR_INT_GRPC_STATUS and an optional string attribute
GRPC_ERROR_STR_TARGET_ADDRESS (the two attributes set by
CFStreamAnnotateError). -/
inductive GrpcError where
  | ok : GrpcError
  | err : String → Option Int → Option String → GrpcError
deriving DecidableEq, Repr

/-- The numeric value of GRPC_STATUS_UNAVAILABLE. -/
def GRPC_STATUS_UNAVAILABLE : Int := 14

/-- 2 to the 32, the modulus of the uint32_t field total_bytes_read. -/
def UINT32_MOD : Nat := 4294967296

/-- The default read allocation size requested from the resource quota
(GRPC_TCP_DEFAULT_READ_SLICE_SIZE); its numeric value does not matter to
any claim, only that one slice of this configured size is requested. -/
def GRPC_TCP_DEFAULT_READ_SLICE_SIZE : Nat := 8192

/-- Externally visible events of the endpoint, in execution order.
schedRead carries the value of the read destination buffer (a list of
slice lengths) at the moment the callback closure is handed to
GRPC_CLOSURE_SCHED, which is the buffer the completion callback
observes when it later runs. -/
inductive Event where
  | schedRead : Nat → GrpcError → Option (List Nat) → Event
  | schedWrite : Nat → GrpcError → Event
  | ref : Event
  | unref : Event
  | free : Event
  | timerInit : Nat → Event
  | timerCancel : Event
  | notifyRead : Event
  | notifyWrite : Event
  | handToTransport : List Byte → Event
  | allocSlices : Nat → Nat → Event
  | diagRead : Event
  | runOnQueue : Event
  | abortCall : Event
  | closeRead : Event
  | closeWrite : Event
  | notifierShutdown : GrpcError → Event
  | resourceShutdown : Event
  | retainReadStream : Event
  | retainWriteStream : Event
  | notifierRef : Event
  | dupPeer : Event
  | resourceCreate : Event
deriving DecidableEq, Repr

/-- The CFStreamEndpoint struct.  Closures are identified by Nat ids;
the read destination buffer is a list of slice lengths (read claims
depend only on lengths); the write source buffer is a list of slices,
each a list of bytes (write claims depend on byte order).  An Option
value none models a null pointer in a slot. -/
structure CFStreamEndpoint where
  refcount : Nat
  read_cb : Option Nat
  write_cb : Option Nat
  read_slices : Option (List Nat)
  write_slices : Option (List (List Byte))
  peer_string : String
  timer_armed : Bool
  total_bytes_read : Nat
deriving DecidableEq, Repr

/-- EP_REF: gpr_ref, an atomic increment of the refcount. -/
def EP_REF (ep : CFStreamEndpoint) : CFStreamEndpoint × List Event :=
  ({ ep with refcount := ep.refcount + 1 }, [Event.ref])

/-- EP_UNREF: gpr_unref, an atomic decrement; when the count reaches
zero CFStreamFree runs (modelled by the free event). -/
def EP_UNREF (ep : CFStreamEndpoint) : CFStreamEndpoint × List Event :=
  ({ ep with refcount := ep.refcount - 1 },
    if ep.refcount = 1 then [Event.unref, Event.free] else [Event.unref])

/-- CFStreamAnnotateError: grpc_error_set_str of the target address to a
copy of the peer string, around grpc_error_set_int of the grpc status to
GRPC_STATUS_UNAVAILABLE.  Every caller passes an error object, never
GRPC_ERROR_NONE, so the ok branch is arbitrary. -/
def CFStreamAnnotateError (src : GrpcError) (ep : CFStreamEndpoint) : GrpcError :=
  match src with
  | GrpcError.ok => GrpcError.ok
  | GrpcError.err msg _ _ =>
      GrpcError.err msg (some GRPC_STATUS_UNAVAILABLE) (some ep.peer_string)

/-- GRPC_ERROR_CREATE_FROM_CFERROR: an error object whose description
combines the given description with the CFError description; neither
attribute is set by creation. -/
def GRPC_ERROR_CREATE_FROM_CFERROR (ce : String) (desc : String) : GrpcError :=
  GrpcError.err (desc ++ ": " ++ ce) none none

/-- CallReadCb: saves the pending read closure, nulls the read_cb and
read_slices slots, then hands the saved closure to GRPC_CLOSURE_SCHED.
The schedRead event snapshots the destination buffer as the callback
will observe it.  Scheduling a null closure would fault, modelled as
abortCall; every caller asserts the slot is non-null first. -/
def CallReadCb (ep : CFStreamEndpoint) (error : GrpcError) : CFStreamEndpoint × List Event :=
  let ep1 := { ep with read_cb := none, read_slices := none }
  match ep.read_cb with
  | some cb => (ep1, [Event.schedRead cb error ep.read_slices])
  | none => (ep1, [Event.abortCall])

/-- CallWriteCb: saves the pending write closure, nulls the write_cb
and write_slices slots, then hands the saved closure to
GRPC_CLOSURE_SCHED. -/
def CallWriteCb (ep : CFStreamEndpoint) (error : GrpcError) : CFStreamEndpoint × List Event :=
  let ep1 := { ep with write_cb := none, write_slices := none }
  match ep.write_cb with
  | some cb => (ep1, [Event.schedWrite cb error])
  | none => (ep1, [Event.abortCall])

/-- Modelled from the spec: grpc_slice_buffer_trim_end removes n bytes
from the end of a slice buffer (the slice container is an external
collaborator of this file; only this operation as the endpoint uses it
is in scope).  Walking from the last slice, a slice longer than the
bytes still to trim is shortened and the rest kept; a slice fully
consumed by the trim is removed. -/
def trimEndRev : List Nat → Nat → List Nat
  | [], _ => []
  | s :: rest, n =>
    if n = 0 then s :: rest
    else if n < s then (s - n) :: rest
    else trimEndRev rest (n - s)

/-- grpc_slice_buffer_trim_end on a buffer given as slice lengths. -/
def grpc_slice_buffer_trim_end (sb : List Nat) (n : Nat) : List Nat :=
  (trimEndRev sb.reverse n).reverse

/-- Modelled from the spec: grpc_slice_sub extracts bytes [a, b) of a
slice. -/
def grpc_slice_sub (slice : List Byte) (a b : Nat) : List Byte :=
  (slice.take b).drop a

/-- The total byte length of a write buffer (the length field of a
grpc_slice_buffer). -/
def bufLength (l : List (List Byte)) : Nat := (l.map List.length).sum

/-- The outcome of the single CFReadStreamRead attempt: streamErr is a
return value of -1 together with the result of CFReadStreamCopyError
(none when the platform supplies no error object); bytes k is a
non-negative return value k. -/
inductive ReadTransfer where
  | streamErr : Option String → ReadTransfer
  | bytes : Nat → ReadTransfer
deriving DecidableEq, Repr

/-- The outcome of the single CFWriteStreamWrite attempt. -/
inductive WriteTransfer where
  | streamErr : Option String → WriteTransfer
  | wrote : Nat → WriteTransfer
deriving DecidableEq, Repr

/-- The body of ReadAction after the incoming-error early return and
the single-slice assertion: classify the transfer outcome into the
error, closed and success paths.  len is the length of the single
granted slice. -/
def readActionBody (ep : CFStreamEndpoint) (len : Nat) (t : ReadTransfer) :
    CFStreamEndpoint × List Event :=
  match t with
  | ReadTransfer.streamErr ce =>
    let ep0 := { ep with read_slices := some [] }
    let e := match ce with
      | some msg =>
          CFStreamAnnotateError (GRPC_ERROR_CREATE_FROM_CFERROR msg "Read error") ep0
      | none => GrpcError.err "Read error" none none
    let r1 := CallReadCb ep0 e
    let r2 := EP_UNREF r1.1
    (r2.1, r1.2 ++ r2.2)
  | ReadTransfer.bytes k =>
    if k = 0 then
      let ep0 := { ep with read_slices := some [] }
      let r1 := CallReadCb ep0
        (CFStreamAnnotateError (GrpcError.err "Socket closed" none none) ep0)
      let r2 := EP_UNREF r1.1
      (r2.1, r1.2 ++ r2.2)
    else
      let ep0 := { ep with total_bytes_read := (ep.total_bytes_read + k) % UINT32_MOD }
      let trimmed := grpc_slice_buffer_trim_end (ep0.read_slices.getD []) (len - k)
      let ep1 :=
        if k < len then { ep0 with read_slices := some trimmed }
        else ep0
      let r1 := CallReadCb ep1 GrpcError.ok
      let r2 := EP_UNREF r1.1
      (r2.1, r1.2 ++ r2.2)

/-- ReadAction: the closure run on a readable notification (or with the
notifier-delivered error).  On an incoming error it resets the buffer,
schedules the callback with that error, unrefs and returns early,
skipping the timer block.  Otherwise it asserts a single granted slice,
performs one transfer attempt, runs exactly one of the three terminal
paths, and finally cancels the watchdog under the mutex if armed. -/
def ReadAction (ep : CFStreamEndpoint) (error : GrpcError) (t : ReadTransfer) :
    CFStreamEndpoint × List Event :=
  match ep.read_cb with
  | none => (ep, [Event.abortCall])
  | some _ =>
    if error ≠ GrpcError.ok then
      let ep0 := { ep with read_slices := some [] }
      let r1 := CallReadCb ep0 error
      let r2 := EP_UNREF r1.1
      (r2.1, r1.2 ++ r2.2)
    else
      match ep.read_slices with
      | some [len] =>
        let body := readActionBody ep len t
        let fin :=
          if body.1.timer_armed then
            ({ body.1 with timer_armed := false }, [Event.timerCancel])
          else (body.1, ([] : List Event))
        (fin.1, body.2 ++ fin.2)
      | _ => (ep, [Event.abortCall])

/-- WriteAction: the closure run on a writable notification (or with
the notifier-delivered error).  Takes the first slice off the source
buffer, attempts one transfer; on failure discards the rest and
schedules the callback with the (possibly annotated) error; on a short
transfer puts the untransferred tail back at the front; re-registers
writable interest while bytes remain, and schedules the success
callback and unrefs exactly when the buffer byte length reaches
zero. -/
def WriteAction (ep : CFStreamEndpoint) (error : GrpcError) (t : WriteTransfer) :
    CFStreamEndpoint × List Event :=
  match ep.write_cb with
  | none => (ep, [Event.abortCall])
  | some _ =>
    if error ≠ GrpcError.ok then
      let ep0 := { ep with write_slices := some [] }
      let r1 := CallWriteCb ep0 error
      let r2 := EP_UNREF r1.1
      (r2.1, r1.2 ++ r2.2)
    else
      match ep.write_slices with
      | none => (ep, [Event.abortCall])
      | some [] => (ep, [Event.abortCall])
      | some (slice :: rest) =>
        let slice_len := slice.length
        let ep0 := { ep with write_slices := some rest }
        match t with
        | WriteTransfer.streamErr ce =>
          let ep1 := { ep0 with write_slices := some [] }
          let e := match ce with
            | some msg =>
                CFStreamAnnotateError (GRPC_ERROR_CREATE_FROM_CFERROR msg "write failed.") ep1
            | none => GrpcError.err "write failed." none none
          let r1 := CallWriteCb ep1 e
          let r2 := EP_UNREF r1.1
          (r2.1, r1.2 ++ r2.2)
        | WriteTransfer.wrote k =>
          let ep1 :=
            if k < slice_len then
              { ep0 with write_slices := some (grpc_slice_sub slice k slice_len :: rest) }
            else ep0
          if bufLength (ep1.write_slices.getD []) > 0 then
            (ep1, [Event.handToTransport (slice.take k), Event.notifyWrite])
          else
            let r1 := CallWriteCb ep1 GrpcError.ok
            let r2 := EP_UNREF r1.1
            (r2.1, [Event.handToTransport (slice.take k)] ++ r1.2 ++ r2.2)

/-- CFStreamReadAllocationDone: the buffer-grant continuation.  On a
successful grant it registers one-shot readable interest; on a failed
grant it resets the buffer, schedules the read callback with the grant
error and releases the read reference. -/
def CFStreamReadAllocationDone (ep : CFStreamEndpoint) (error : GrpcError) :
    CFStreamEndpoint × List Event :=
  if error = GrpcError.ok then (ep, [Event.notifyRead])
  else
    let ep0 := { ep with read_slices := some [] }
    let r1 := CallReadCb ep0 error
    let r2 := EP_UNREF r1.1
    (r2.1, r1.2 ++ r2.2)

/-- err_cb: the watchdog timer closure.  Invoked with a non-null error
(the timer was cancelled) it returns at once, touching nothing.
Invoked with GRPC_ERROR_NONE (the 60 second deadline elapsed) it reads
any currently available bytes from the transport as a diagnostic,
clears the armed flag under the mutex, flushes the notifier queue with
RunOnQueue, and aborts the process. -/
def err_cb (ep : CFStreamEndpoint) (error : GrpcError) : CFStreamEndpoint × List Event :=
  if error ≠ GrpcError.ok then (ep, [])
  else
    ({ ep with timer_armed := false },
     [Event.diagRead, Event.runOnQueue, Event.abortCall])

/-- CFStreamRead: issue a read.  Under the mutex, if the watchdog is
not armed, grpc_timer_init arms it with deadline now + 1000*60
milliseconds and the err_cb closure; then the no-pending-read assertion
runs, the read_cb and read_slices slots are filled, the caller buffer
is reset, one slice of the default read size is requested from the
resource quota, and one endpoint reference is taken.  The content of
the caller buffer is irrelevant after the reset, so only the callback
id is a parameter. -/
def CFStreamRead (ep : CFStreamEndpoint) (cb : Nat) : CFStreamEndpoint × List Event :=
  let armPair :=
    if ep.timer_armed = false then
      ({ ep with timer_armed := true }, [Event.timerInit 60000])
    else (ep, ([] : List Event))
  let ep1 := armPair.1
  match ep1.read_cb with
  | some _ => (ep1, armPair.2 ++ [Event.abortCall])
  | none =>
    let ep2 := { ep1 with read_cb := some cb, read_slices := some [] }
    let r3 := EP_REF ep2
    (r3.1, armPair.2 ++ [Event.allocSlices GRPC_TCP_DEFAULT_READ_SLICE_SIZE 1] ++ r3.2)

/-- CFStreamWrite: issue a write.  Asserts no pending write, fills the
write_cb and write_slices slots, takes one reference and registers
one-shot writable interest. -/
def CFStreamWrite (ep : CFStreamEndpoint) (cb : Nat) (slices : List (List Byte)) :
    CFStreamEndpoint × List Event :=
  match ep.write_cb with
  | some _ => (ep, [Event.abortCall])
  | none =>
    let ep1 := { ep with write_cb := some cb, write_slices := some slices }
    let r2 := EP_REF ep1
    (r2.1, r2.2 ++ [Event.notifyWrite])

/-- CFStreamShutdown: under the mutex, cancel the watchdog and clear
the armed flag when armed; then close the read and write streams,
forward the reason to the stream notifier and shut the resource user
down.  No reference is taken or dropped. -/
def CFStreamShutdown (ep : CFStreamEndpoint) (why : GrpcError) :
    CFStreamEndpoint × List Event :=
  let cancelPair :=
    if ep.timer_armed then ({ ep with timer_armed := false }, [Event.timerCancel])
    else (ep, ([] : List Event))
  (cancelPair.1,
    cancelPair.2 ++ [Event.closeRead, Event.closeWrite,
      Event.notifierShutdown why, Event.resourceShutdown])

/-- CFStreamDestroy: exactly one EP_UNREF. -/
def CFStreamDestroy (ep : CFStreamEndpoint) : CFStreamEndpoint × List Event :=
  EP_UNREF ep

/-- grpc_cfstream_endpoint_create: a fresh endpoint with refcount 1,
watchdog disarmed, byte counter 0 and empty callback slots; the trace
records the CFRetain of both streams, the notifier handle ref, the
gpr_strdup of the peer string and the resource user creation. -/
def grpc_cfstream_endpoint_create (peer : String) : CFStreamEndpoint × List Event :=
  ({ refcount := 1, read_cb := none, write_cb := none, read_slices := none,
     write_slices := none, peer_string := peer, timer_armed := false,
     total_bytes_read := 0 },
   [Event.retainReadStream, Event.retainWriteStream, Event.notifierRef,
    Event.dupPeer, Event.resourceCreate])

/-- The bytes handed to the transport across a trace, in order. -/
def handedBytes : List Event → List Byte
  | [] => []
  | Event.handToTransport bs :: evs => bs ++ handedBytes evs
  | _ :: evs => handedBytes evs

/-- How many read completion callbacks a trace schedules. -/
def schedReadCount : List Event → Nat
  | [] => 0
  | Event.schedRead _ _ _ :: evs => schedReadCount evs + 1
  | _ :: evs => schedReadCount evs

/-- How many write completion callbacks a trace schedules. -/
def schedWriteCount : List Event → Nat
  | [] => 0
  | Event.schedWrite _ _ :: evs => schedWriteCount evs + 1
  | _ :: evs => schedWriteCount evs

/-- How many references a trace takes. -/
def refEvCount : List Event → Nat
  | [] => 0
  | Event.ref :: evs => refEvCount evs + 1
  | _ :: evs => refEvCount evs

/-- How many references a trace drops. -/
def unrefEvCount : List Event → Nat
  | [] => 0
  | Event.unref :: evs => unrefEvCount evs + 1
  | _ :: evs => unrefEvCount evs

/-- A run of the write pipeline: the notifier delivers writable
notifications (each with its transfer outcome) while the write is still
pending; the run stops when the write callback slot has been
cleared. -/
def writeRun : CFStreamEndpoint → List WriteTransfer → CFStreamEndpoint × List Event
  | ep, [] => (ep, [])
  | ep, t :: ts =>
    match ep.write_cb with
    | none => (ep, [])
    | some _ =>
      let r1 := WriteAction ep GrpcError.ok t
      let r2 := writeRun r1.1 ts
      (r2.1, r1.2 ++ r2.2)

example :
    (ReadAction
      { refcount := 2, read_cb := some 1, write_cb := none,
        read_slices := some [64], write_slices := none, peer_string := "p",
        timer_armed := true, total_bytes_read := 0 }
      GrpcError.ok (ReadTransfer.bytes 10)).2 =
    [Event.schedRead 1 GrpcError.ok (some [10]), Event.unref, Event.timerCancel] := by
  decide

/-! Helper lemmas about the event counters and the primitive state
transitions. -/

theorem schedReadCount_append (a b : List Event) :
    schedReadCount (a ++ b) = schedReadCount a + schedReadCount b := by
  induction a with
  | nil => simp [schedReadCount]
  | cons x xs ih => cases x <;> simp [schedReadCount, ih] <;> omega

theorem schedWriteCount_append (a b : List Event) :
    schedWriteCount (a ++ b) = schedWriteCount a + schedWriteCount b := by
  induction a with
  | nil => simp [schedWriteCount]
  | cons x xs ih => cases x <;> simp [schedWriteCount, ih] <;> omega

theorem refEvCount_append (a b : List Event) :
    refEvCount (a ++ b) = refEvCount a + refEvCount b := by
  induction a with
  | nil => simp [refEvCount]
  | cons x xs ih => cases x <;> simp [refEvCount, ih] <;> omega

theorem unrefEvCount_append (a b : List Event) :
    unrefEvCount (a ++ b) = unrefEvCount a + unrefEvCount b := by
  induction a with
  | nil => simp [unrefEvCount]
  | cons x xs ih => cases x <;> simp [unrefEvCount, ih] <;> omega

theorem handedBytes_append (a b : List Event) :
    handedBytes (a ++ b) = handedBytes a ++ handedBytes b := by
  induction a with
  | nil => simp [handedBytes]
  | cons x xs ih => cases x <;> simp [handedBytes, ih]

theorem CallReadCb_some (ep : CFStreamEndpoint) (cb : Nat) (e : GrpcError)
    (h : ep.read_cb = some cb) :
    CallReadCb ep e =
      ({ ep with read_cb := none, read_slices := none },
       [Event.schedRead cb e ep.read_slices]) := by
  simp [CallReadCb, h]

theorem CallWriteCb_some (ep : CFStreamEndpoint) (cb : Nat) (e : GrpcError)
    (h : ep.write_cb = some cb) :
    CallWriteCb ep e =
      ({ ep with write_cb := none, write_slices := none },
       [Event.schedWrite cb e]) := by
  simp [CallWriteCb, h]

theorem EP_UNREF_spec (ep : CFStreamEndpoint) :
    EP_UNREF ep =
      ({ ep with refcount := ep.refcount - 1 },
       if ep.refcount = 1 then [Event.unref, Event.free] else [Event.unref]) := rfl

theorem schedReadCount_EP_UNREF (ep : CFStreamEndpoint) :
    schedReadCount (EP_UNREF ep).2 = 0 := by
  by_cases h : ep.refcount = 1 <;> simp [EP_UNREF, h, schedReadCount]

theorem schedWriteCount_EP_UNREF (ep : CFStreamEndpoint) :
    schedWriteCount (EP_UNREF ep).2 = 0 := by
  by_cases h : ep.refcount = 1 <;> simp [EP_UNREF, h, schedWriteCount]

theorem unrefEvCount_EP_UNREF (ep : CFStreamEndpoint) :
    unrefEvCount (EP_UNREF ep).2 = 1 := by
  by_cases h : ep.refcount = 1 <;> simp [EP_UNREF, h, unrefEvCount]

theorem schedReadCount_CallReadCb_eq (ep : CFStreamEndpoint) (e : GrpcError) :
    schedReadCount (CallReadCb ep e).2 = if ep.read_cb = none then 0 else 1 := by
  unfold CallReadCb
  cases h : ep.read_cb <;> simp [schedReadCount, h]

theorem schedWriteCount_CallWriteCb_eq (ep : CFStreamEndpoint) (e : GrpcError) :
    schedWriteCount (CallWriteCb ep e).2 = if ep.write_cb = none then 0 else 1 := by
  unfold CallWriteCb
  cases h : ep.write_cb <;> simp [schedWriteCount, h]

theorem schedReadCount_readActionBody (ep : CFStreamEndpoint) (cb : Nat)
    (len : Nat) (t : ReadTransfer) (h : ep.read_cb = some cb) :
    schedReadCount (readActionBody ep len t).2 = 1 := by
  cases t with
  | streamErr ce =>
    simp [readActionBody, schedReadCount_append, schedReadCount_CallReadCb_eq,
      schedReadCount_EP_UNREF, h]
  | bytes k =>
    by_cases hk : k = 0 <;>
      simp [readActionBody, hk, schedReadCount_append, schedReadCount_CallReadCb_eq,
        schedReadCount_EP_UNREF, h, apply_ite]

/-- A concrete endpoint state with a pending read and a pending write,
used to instantiate hypothesis-bearing theorems. -/
def epSampleRead : CFStreamEndpoint :=
  { refcount := 2, read_cb := some 1, write_cb := some 2,
    read_slices := some [64], write_slices := some [[7, 7]],
    peer_string := "ipv4:127.0.0.1:443", timer_armed := true,
    total_bytes_read := 0 }

/-- A freshly created endpoint, with both callback slots empty. -/
def epCreated : CFStreamEndpoint := (grpc_cfstream_endpoint_create "peer").1

theorem trim_single (len k : Nat) (hk : 0 < k) (hkle : k ≤ len) :
    grpc_slice_buffer_trim_end [len] (len - k) = [k] := by
  unfold grpc_slice_buffer_trim_end
  simp only [List.reverse_singleton]
  unfold trimEndRev
  by_cases h0 : len - k = 0
  · rw [if_pos h0]
    simp only [List.reverse_singleton, List.cons.injEq, and_true]
    omega
  · rw [if_neg h0, if_pos (by omega : len - k < len)]
    simp only [List.reverse_singleton, List.cons.injEq, and_true]
    omega

/-- Claim C1: for every issued read and every issued write, the
completion callback is scheduled at most once per run of the completion
action; CallReadCb and CallWriteCb null the pending-callback slot and
its buffer pointer in the very state in which the callback closure is
handed to the scheduler, so code running during or after the callback
cannot observe the stale callback; and a completion action entered with
an already-cleared slot schedules no callback at all. -/
theorem C1_callback_at_most_once :
    (∀ ep cb e, ep.read_cb = some cb →
      (CallReadCb ep e).1.read_cb = none ∧
      (CallReadCb ep e).1.read_slices = none ∧
      (CallReadCb ep e).2 = [Event.schedRead cb e ep.read_slices]) ∧
    (∀ ep cb e, ep.write_cb = some cb →
      (CallWriteCb ep e).1.write_cb = none ∧
      (CallWriteCb ep e).1.write_slices = none ∧
      (CallWriteCb ep e).2 = [Event.schedWrite cb e]) ∧
    (∀ ep e t, schedReadCount (ReadAction ep e t).2 ≤ 1) ∧
    (∀ ep e t, schedWriteCount (WriteAction ep e t).2 ≤ 1) ∧
    (∀ ep e t, ep.read_cb = none → schedReadCount (ReadAction ep e t).2 = 0) ∧
    (∀ ep e t, ep.write_cb = none → schedWriteCount (WriteAction ep e t).2 = 0) := by
  refine ⟨?_, ?_, ?_, ?_, ?_, ?_⟩
  · intro ep cb e h
    simp [CallReadCb_some _ _ _ h]
  · intro ep cb e h
    simp [CallWriteCb_some _ _ _ h]
  · intro ep e t
    cases h : ep.read_cb with
    | none => simp [ReadAction, h, schedReadCount]
    | some cb =>
      by_cases he : e = GrpcError.ok
      · subst he
        cases hs : ep.read_slices with
        | none => simp [ReadAction, h, hs, schedReadCount]
        | some sb =>
          match sb with
          | [] => simp [ReadAction, h, hs, schedReadCount]
          | [len] =>
            have hb := schedReadCount_readActionBody ep cb len t h
            by_cases ht : (readActionBody ep len t).1.timer_armed <;>
              simp [ReadAction, h, hs, ht, schedReadCount_append, hb, schedReadCount]
          | a :: b :: l => simp [ReadAction, h, hs, schedReadCount]
      · simp [ReadAction, h, he, schedReadCount_append, schedReadCount_CallReadCb_eq,
          schedReadCount_EP_UNREF]
  · intro ep e t
    cases h : ep.write_cb with
    | none => simp [WriteAction, h, schedWriteCount]
    | some cb =>
      by_cases he : e = GrpcError.ok
      · subst he
        cases hs : ep.write_slices with
        | none => simp [WriteAction, h, hs, schedWriteCount]
        | some sb =>
          match sb with
          | [] => simp [WriteAction, h, hs, schedWriteCount]
          | slice :: rest =>
            cases t with
            | streamErr ce =>
              simp [WriteAction, h, hs, schedWriteCount_append,
                schedWriteCount_CallWriteCb_eq, schedWriteCount_EP_UNREF]
            | wrote k =>
              simp only [WriteAction, h, hs]
              split_ifs <;>
                simp [schedWriteCount_append, schedWriteCount_CallWriteCb_eq,
                  schedWriteCount_EP_UNREF, schedWriteCount]
      · simp [WriteAction, h, he, schedWriteCount_append,
          schedWriteCount_CallWriteCb_eq, schedWriteCount_EP_UNREF]
  · intro ep e t h
    simp [ReadAction, h, schedReadCount]
  · intro ep e t h
    simp [WriteAction, h, schedWriteCount]

/-- Witness for C1 at concrete inputs. -/
theorem C1_witness :
    (epSampleRead.read_cb = some 1 ∧
     (CallReadCb epSampleRead GrpcError.ok).1.read_cb = none ∧
     (CallReadCb epSampleRead GrpcError.ok).1.read_slices = none ∧
     (CallReadCb epSampleRead GrpcError.ok).2 =
       [Event.schedRead 1 GrpcError.ok epSampleRead.read_slices]) ∧
    (epSampleRead.write_cb = some 2 ∧
     (CallWriteCb epSampleRead GrpcError.ok).1.write_cb = none ∧
     (CallWriteCb epSampleRead GrpcError.ok).1.write_slices = none ∧
     (CallWriteCb epSampleRead GrpcError.ok).2 = [Event.schedWrite 2 GrpcError.ok]) ∧
    schedReadCount (ReadAction epSampleRead GrpcError.ok (ReadTransfer.bytes 3)).2 ≤ 1 ∧
    schedWriteCount (WriteAction epSampleRead GrpcError.ok (WriteTransfer.wrote 1)).2 ≤ 1 ∧
    (epCreated.read_cb = none ∧
     schedReadCount (ReadAction epCreated GrpcError.ok (ReadTransfer.bytes 3)).2 = 0) ∧
    (epCreated.write_cb = none ∧
     schedWriteCount (WriteAction epCreated GrpcError.ok (WriteTransfer.wrote 1)).2 = 0) := by
  have h := C1_callback_at_most_once
  exact ⟨⟨rfl, h.1 epSampleRead 1 GrpcError.ok rfl⟩,
    ⟨rfl, h.2.1 epSampleRead 2 GrpcError.ok rfl⟩,
    h.2.2.1 epSampleRead GrpcError.ok (ReadTransfer.bytes 3),
    h.2.2.2.1 epSampleRead GrpcError.ok (WriteTransfer.wrote 1),
    ⟨rfl, h.2.2.2.2.1 epCreated GrpcError.ok (ReadTransfer.bytes 3) rfl⟩,
    ⟨rfl, h.2.2.2.2.2 epCreated GrpcError.ok (WriteTransfer.wrote 1) rfl⟩⟩

/-- Claim C2: for every read whose single granted slice has length len
and whose transfer attempt returns k bytes with 0 < k ≤ len, the
destination buffer delivered to the callback is trimmed from len to
exactly k bytes (unchanged when k = len), the cumulative byte counter
grows by k (as a uint32), the completion callback is scheduled exactly
once with success, and exactly one endpoint reference is released. -/
theorem ReadAction_success_eq (ep : CFStreamEndpoint) (cb len k : Nat)
    (hcb : ep.read_cb = some cb) (hbuf : ep.read_slices = some [len])
    (hk : 0 < k) (hkle : k ≤ len) :
    ReadAction ep GrpcError.ok (ReadTransfer.bytes k) =
      ({ refcount := ep.refcount - 1, read_cb := none, write_cb := ep.write_cb,
         read_slices := none, write_slices := ep.write_slices,
         peer_string := ep.peer_string, timer_armed := false,
         total_bytes_read := (ep.total_bytes_read + k) % UINT32_MOD },
       [Event.schedRead cb GrpcError.ok (some [k])] ++
         (if ep.refcount = 1 then [Event.unref, Event.free] else [Event.unref]) ++
         (if ep.timer_armed then [Event.timerCancel] else [])) := by
  have htrim : grpc_slice_buffer_trim_end [len] (len - k) = [k] :=
    trim_single len k hk hkle
  have hknz : ¬ k = 0 := by omega
  unfold ReadAction readActionBody
  simp only [hcb, hbuf, ne_eq, not_true_eq_false, if_false, reduceIte,
    Option.getD_some, hknz, CallReadCb, EP_UNREF]
  by_cases hlt : k < len
  · simp only [hlt, if_true, reduceIte, htrim]
    by_cases ht : ep.timer_armed <;> simp [ht]
  · have hkeq : k = len := by omega
    subst hkeq
    simp only [hlt, if_false, reduceIte, hbuf]
    by_cases ht : ep.timer_armed <;> simp [ht]

theorem C2_read_success (ep : CFStreamEndpoint) (cb len k : Nat)
    (hcb : ep.read_cb = some cb) (hbuf : ep.read_slices = some [len])
    (hk : 0 < k) (hkle : k ≤ len) :
    Event.schedRead cb GrpcError.ok (some [k]) ∈
      (ReadAction ep GrpcError.ok (ReadTransfer.bytes k)).2 ∧
    schedReadCount (ReadAction ep GrpcError.ok (ReadTransfer.bytes k)).2 = 1 ∧
    (ReadAction ep GrpcError.ok (ReadTransfer.bytes k)).1.total_bytes_read =
      (ep.total_bytes_read + k) % UINT32_MOD ∧
    (ep.total_bytes_read + k < UINT32_MOD →
      (ReadAction ep GrpcError.ok (ReadTransfer.bytes k)).1.total_bytes_read =
        ep.total_bytes_read + k) ∧
    unrefEvCount (ReadAction ep GrpcError.ok (ReadTransfer.bytes k)).2 = 1 ∧
    (ReadAction ep GrpcError.ok (ReadTransfer.bytes k)).1.refcount = ep.refcount - 1 := by
  rw [ReadAction_success_eq ep cb len k hcb hbuf hk hkle]
  refine ⟨?_, ?_, ?_, ?_, ?_, ?_⟩
  · simp
  · by_cases hr : ep.refcount = 1 <;> by_cases ht : ep.timer_armed <;>
      simp [hr, ht, schedReadCount_append, schedReadCount]
  · rfl
  · intro hlt
    simp [Nat.mod_eq_of_lt hlt]
  · by_cases hr : ep.refcount = 1 <;> by_cases ht : ep.timer_armed <;>
      simp [hr, ht, unrefEvCount_append, unrefEvCount]
  · rfl

/-- A concrete state for the C2 scenario: a 64 byte destination and a
10 byte transfer. -/
def epC2 : CFStreamEndpoint :=
  { refcount := 2, read_cb := some 1, write_cb := none, read_slices := some [64],
    write_slices := none, peer_string := "ipv4:127.0.0.1:443", timer_armed := true,
    total_bytes_read := 0 }

/-- Witness for C2: the spec scenario itself (64 byte destination, 10
byte transfer, callback success, destination trimmed to 10 bytes, byte
counter 10). -/
theorem C2_witness :
    epC2.read_cb = some 1 ∧ epC2.read_slices = some [64] ∧ 0 < 10 ∧ 10 ≤ 64 ∧
    (Event.schedRead 1 GrpcError.ok (some [10]) ∈
      (ReadAction epC2 GrpcError.ok (ReadTransfer.bytes 10)).2 ∧
     schedReadCount (ReadAction epC2 GrpcError.ok (ReadTransfer.bytes 10)).2 = 1 ∧
     (ReadAction epC2 GrpcError.ok (ReadTransfer.bytes 10)).1.total_bytes_read =
       (epC2.total_bytes_read + 10) % UINT32_MOD ∧
     (epC2.total_bytes_read + 10 < UINT32_MOD →
       (ReadAction epC2 GrpcError.ok (ReadTransfer.bytes 10)).1.total_bytes_read =
         epC2.total_bytes_read + 10) ∧
     unrefEvCount (ReadAction epC2 GrpcError.ok (ReadTransfer.bytes 10)).2 = 1 ∧
     (ReadAction epC2 GrpcError.ok (ReadTransfer.bytes 10)).1.refcount =
       epC2.refcount - 1) ∧
    (ReadAction epC2 GrpcError.ok (ReadTransfer.bytes 10)).1.total_bytes_read = 10 :=
  ⟨rfl, rfl, by decide, by decide,
   C2_read_success epC2 1 64 10 rfl rfl (by decide) (by decide), by decide⟩

theorem grpc_slice_sub_drop (slice : List Byte) (k : Nat) :
    grpc_slice_sub slice k slice.length = slice.drop k := by
  simp [grpc_slice_sub, List.take_length]

theorem ReadAction_closed_eq (ep : CFStreamEndpoint) (cb len : Nat)
    (hcb : ep.read_cb = some cb) (hbuf : ep.read_slices = some [len]) :
    ReadAction ep GrpcError.ok (ReadTransfer.bytes 0) =
      ({ refcount := ep.refcount - 1, read_cb := none, write_cb := ep.write_cb,
         read_slices := none, write_slices := ep.write_slices,
         peer_string := ep.peer_string, timer_armed := false,
         total_bytes_read := ep.total_bytes_read },
       [Event.schedRead cb
          (GrpcError.err "Socket closed" (some GRPC_STATUS_UNAVAILABLE)
            (some ep.peer_string)) (some [])] ++
         (if ep.refcount = 1 then [Event.unref, Event.free] else [Event.unref]) ++
         (if ep.timer_armed then [Event.timerCancel] else [])) := by
  unfold ReadAction readActionBody
  simp only [hcb, hbuf, ne_eq, not_true_eq_false, if_false, reduceIte,
    CFStreamAnnotateError, CallReadCb, EP_UNREF]
  by_cases ht : ep.timer_armed <;> simp [ht]

theorem ReadAction_streamErr_eq (ep : CFStreamEndpoint) (cb len : Nat)
    (ce : Option String)
    (hcb : ep.read_cb = some cb) (hbuf : ep.read_slices = some [len]) :
    ReadAction ep GrpcError.ok (ReadTransfer.streamErr ce) =
      ({ refcount := ep.refcount - 1, read_cb := none, write_cb := ep.write_cb,
         read_slices := none, write_slices := ep.write_slices,
         peer_string := ep.peer_string, timer_armed := false,
         total_bytes_read := ep.total_bytes_read },
       [Event.schedRead cb
          (match ce with
           | some msg => GrpcError.err ("Read error" ++ ": " ++ msg)
               (some GRPC_STATUS_UNAVAILABLE) (some ep.peer_string)
           | none => GrpcError.err "Read error" none none) (some [])] ++
         (if ep.refcount = 1 then [Event.unref, Event.free] else [Event.unref]) ++
         (if ep.timer_armed then [Event.timerCancel] else [])) := by
  unfold ReadAction readActionBody
  cases ce <;>
    simp only [hcb, hbuf, ne_eq, not_true_eq_false, if_false, reduceIte,
      CFStreamAnnotateError, GRPC_ERROR_CREATE_FROM_CFERROR, CallReadCb, EP_UNREF] <;>
    (by_cases ht : ep.timer_armed <;> simp [ht])

theorem ReadAction_incoming_error_eq (ep : CFStreamEndpoint) (cb : Nat)
    (e : GrpcError) (t : ReadTransfer)
    (hcb : ep.read_cb = some cb) (he : e ≠ GrpcError.ok) :
    ReadAction ep e t =
      ({ refcount := ep.refcount - 1, read_cb := none, write_cb := ep.write_cb,
         read_slices := none, write_slices := ep.write_slices,
         peer_string := ep.peer_string, timer_armed := ep.timer_armed,
         total_bytes_read := ep.total_bytes_read },
       [Event.schedRead cb e (some [])] ++
         (if ep.refcount = 1 then [Event.unref, Event.free] else [Event.unref])) := by
  unfold ReadAction
  simp [hcb, he, CallReadCb, EP_UNREF]

theorem WriteAction_incoming_error_eq (ep : CFStreamEndpoint) (cb : Nat)
    (e : GrpcError) (t : WriteTransfer)
    (hcb : ep.write_cb = some cb) (he : e ≠ GrpcError.ok) :
    WriteAction ep e t =
      ({ refcount := ep.refcount - 1, read_cb := ep.read_cb, write_cb := none,
         read_slices := ep.read_slices, write_slices := none,
         peer_string := ep.peer_string, timer_armed := ep.timer_armed,
         total_bytes_read := ep.total_bytes_read },
       [Event.schedWrite cb e] ++
         (if ep.refcount = 1 then [Event.unref, Event.free] else [Event.unref])) := by
  unfold WriteAction
  simp [hcb, he, CallWriteCb, EP_UNREF]

theorem WriteAction_streamErr_eq (ep : CFStreamEndpoint) (cb : Nat)
    (slice : List Byte) (rest : List (List Byte)) (ce : Option String)
    (hcb : ep.write_cb = some cb) (hs : ep.write_slices = some (slice :: rest)) :
    WriteAction ep GrpcError.ok (WriteTransfer.streamErr ce) =
      ({ refcount := ep.refcount - 1, read_cb := ep.read_cb, write_cb := none,
         read_slices := ep.read_slices, write_slices := none,
         peer_string := ep.peer_string, timer_armed := ep.timer_armed,
         total_bytes_read := ep.total_bytes_read },
       [Event.schedWrite cb
          (match ce with
           | some msg => GrpcError.err ("write failed." ++ ": " ++ msg)
               (some GRPC_STATUS_UNAVAILABLE) (some ep.peer_string)
           | none => GrpcError.err "write failed." none none)] ++
         (if ep.refcount = 1 then [Event.unref, Event.free] else [Event.unref])) := by
  unfold WriteAction
  cases ce <;>
    simp [hcb, hs, CFStreamAnnotateError, GRPC_ERROR_CREATE_FROM_CFERROR,
      CallWriteCb, EP_UNREF]

theorem WriteAction_wrote_more_eq (ep : CFStreamEndpoint) (cb : Nat)
    (slice : List Byte) (rest : List (List Byte)) (k : Nat)
    (hcb : ep.write_cb = some cb) (hs : ep.write_slices = some (slice :: rest))
    (hpos : 0 < bufLength (if k < slice.length then slice.drop k :: rest else rest)) :
    WriteAction ep GrpcError.ok (WriteTransfer.wrote k) =
      ({ refcount := ep.refcount, read_cb := ep.read_cb, write_cb := some cb,
         read_slices := ep.read_slices,
         write_slices := some (if k < slice.length then slice.drop k :: rest else rest),
         peer_string := ep.peer_string, timer_armed := ep.timer_armed,
         total_bytes_read := ep.total_bytes_read },
       [Event.handToTransport (slice.take k), Event.notifyWrite]) := by
  unfold WriteAction
  by_cases hlt : k < slice.length <;>
    simp only [hlt, if_true, if_false, reduceIte] at hpos <;>
    simp [hcb, hs, hlt, grpc_slice_sub_drop, hpos]

theorem WriteAction_wrote_done_eq (ep : CFStreamEndpoint) (cb : Nat)
    (slice : List Byte) (rest : List (List Byte)) (k : Nat)
    (hcb : ep.write_cb = some cb) (hs : ep.write_slices = some (slice :: rest))
    (hzero : bufLength (if k < slice.length then slice.drop k :: rest else rest) = 0) :
    WriteAction ep GrpcError.ok (WriteTransfer.wrote k) =
      ({ refcount := ep.refcount - 1, read_cb := ep.read_cb, write_cb := none,
         read_slices := ep.read_slices, write_slices := none,
         peer_string := ep.peer_string, timer_armed := ep.timer_armed,
         total_bytes_read := ep.total_bytes_read },
       [Event.handToTransport (slice.take k), Event.schedWrite cb GrpcError.ok] ++
         (if ep.refcount = 1 then [Event.unref, Event.free] else [Event.unref])) := by
  unfold WriteAction
  by_cases hlt : k < slice.length <;>
    simp only [hlt, if_true, if_false, reduceIte] at hzero <;>
    simp [hcb, hs, hlt, grpc_slice_sub_drop, hzero, CallWriteCb, EP_UNREF]

theorem WriteAction_empty_eq (ep : CFStreamEndpoint) (cb : Nat)
    (t : WriteTransfer)
    (hcb : ep.write_cb = some cb) (hs : ep.write_slices = some []) :
    WriteAction ep GrpcError.ok t = (ep, [Event.abortCall]) := by
  unfold WriteAction
  simp [hcb, hs]

theorem writeRun_none (ep : CFStreamEndpoint) (ts : List WriteTransfer)
    (h : ep.write_cb = none) : writeRun ep ts = (ep, []) := by
  cases ts <;> simp [writeRun, h]

theorem flatten_eq_nil_of_bufLength_zero (l : List (List Byte))
    (h : bufLength l = 0) : l.flatten = [] := by
  induction l with
  | nil => rfl
  | cons x xs ih =>
    simp only [bufLength, List.map_cons, List.sum_cons] at h
    have hx : x.length = 0 := by omega
    have hxs : bufLength xs = 0 := by simpa [bufLength] using (by omega : (xs.map List.length).sum = 0)
    simp [List.length_eq_zero.mp hx, ih hxs]

theorem handedBytes_unref_ite (c : Prop) [Decidable c] :
    handedBytes (if c then [Event.unref, Event.free] else [Event.unref]) = [] := by
  split <;> rfl

theorem schedWrite_not_mem_unref_ite (c : Prop) [Decidable c] (cb : Nat)
    (e : GrpcError) :
    Event.schedWrite cb e ∉
      (if c then [Event.unref, Event.free] else [Event.unref]) := by
  split <;> simp

/-- Along any run of the write pipeline driven by writable
notifications, the bytes handed to the transport form a prefix of the
original byte sequence (in order), and the success callback is
scheduled only when every byte of the original sequence has been handed
to the transport. -/
theorem writeRun_ordered : ∀ (ts : List WriteTransfer) (ep : CFStreamEndpoint)
    (cb : Nat) (bufs : List (List Byte)),
    ep.write_cb = some cb → ep.write_slices = some bufs →
    (∃ rem, handedBytes (writeRun ep ts).2 ++ rem = bufs.flatten) ∧
    (Event.schedWrite cb GrpcError.ok ∈ (writeRun ep ts).2 →
      handedBytes (writeRun ep ts).2 = bufs.flatten) := by
  intro ts
  induction ts with
  | nil =>
    intro ep cb bufs hcb hs
    refine ⟨⟨bufs.flatten, by simp [writeRun, handedBytes]⟩, ?_⟩
    intro hmem
    simp [writeRun] at hmem
  | cons t ts ih =>
    intro ep cb bufs hcb hs
    cases bufs with
    | nil =>
      have hw := WriteAction_empty_eq ep cb t hcb hs
      have hrun : writeRun ep (t :: ts) =
          ((writeRun ep ts).1, [Event.abortCall] ++ (writeRun ep ts).2) := by
        simp [writeRun, hcb, hw]
      obtain ⟨⟨rem, hrem⟩, hmem⟩ := ih ep cb [] hcb hs
      refine ⟨⟨rem, by simpa [hrun, handedBytes] using hrem⟩, ?_⟩
      intro hm
      rw [hrun] at hm
      simp only [List.singleton_append, List.mem_cons] at hm
      rcases hm with hm | hm
      · cases hm
      · simpa [hrun, handedBytes] using hmem hm
    | cons slice rest =>
      cases t with
      | streamErr ce =>
        have hw := WriteAction_streamErr_eq ep cb slice rest ce hcb hs
        have hnone := writeRun_none (WriteAction ep GrpcError.ok
          (WriteTransfer.streamErr ce)).1 ts (by rw [hw])
        have hrun : writeRun ep (WriteTransfer.streamErr ce :: ts) =
            ((WriteAction ep GrpcError.ok (WriteTransfer.streamErr ce)).1,
             (WriteAction ep GrpcError.ok (WriteTransfer.streamErr ce)).2) := by
          simp [writeRun, hcb, hnone]
        rw [hrun, hw]
        constructor
        · exact ⟨(slice :: rest).flatten, by
            simp [handedBytes_append, handedBytes, handedBytes_unref_ite]⟩
        · intro hm
          simp only [List.singleton_append, List.mem_cons] at hm
          rcases hm with hm | hm
          · cases ce <;> simp at hm
          · exact absurd hm (schedWrite_not_mem_unref_ite _ cb GrpcError.ok)
      | wrote k =>
        rcases Nat.eq_zero_or_pos
            (bufLength (if k < slice.length then slice.drop k :: rest else rest)) with
          hz | hp
        · -- the transfer drains the buffer: success is scheduled and the run stops
          have hw := WriteAction_wrote_done_eq ep cb slice rest k hcb hs hz
          have hnone := writeRun_none (WriteAction ep GrpcError.ok
            (WriteTransfer.wrote k)).1 ts (by rw [hw])
          have hrun : writeRun ep (WriteTransfer.wrote k :: ts) =
              ((WriteAction ep GrpcError.ok (WriteTransfer.wrote k)).1,
               (WriteAction ep GrpcError.ok (WriteTransfer.wrote k)).2) := by
            simp [writeRun, hcb, hnone]
          have hflat : (if k < slice.length then slice.drop k :: rest else rest).flatten = [] :=
            flatten_eq_nil_of_bufLength_zero _ hz
          have hhand : slice.take k = (slice :: rest).flatten := by
            by_cases hlt : k < slice.length
            · simp only [hlt, if_true, reduceIte, List.flatten_cons] at hflat
              obtain ⟨hdrop, hrest⟩ := List.append_eq_nil.mp hflat
              have htake : slice.take k = slice := by
                have h3 := List.take_append_drop k slice
                rw [hdrop, List.append_nil] at h3
                exact h3
              simp [htake, hrest]
            · simp only [hlt, if_false, reduceIte] at hflat
              have htake : slice.take k = slice :=
                List.take_of_length_le (by omega)
              simp [htake, hflat]
          rw [hrun, hw]
          constructor
          · refine ⟨[], ?_⟩
            simp [handedBytes_append, handedBytes, handedBytes_unref_ite, hhand]
          · intro hm
            simp [handedBytes_append, handedBytes, handedBytes_unref_ite, hhand]
        · -- bytes remain: writable interest is re-registered and the run continues
          have hw := WriteAction_wrote_more_eq ep cb slice rest k hcb hs hp
          have hA1cb : (WriteAction ep GrpcError.ok (WriteTransfer.wrote k)).1.write_cb =
              some cb := by rw [hw]
          have hA1ws : (WriteAction ep GrpcError.ok (WriteTransfer.wrote k)).1.write_slices =
              some (if k < slice.length then slice.drop k :: rest else rest) := by rw [hw]
          have hA2 : (WriteAction ep GrpcError.ok (WriteTransfer.wrote k)).2 =
              [Event.handToTransport (slice.take k), Event.notifyWrite] := by rw [hw]
          have hrun : writeRun ep (WriteTransfer.wrote k :: ts) =
              ((writeRun (WriteAction ep GrpcError.ok (WriteTransfer.wrote k)).1 ts).1,
               (WriteAction ep GrpcError.ok (WriteTransfer.wrote k)).2 ++
                 (writeRun (WriteAction ep GrpcError.ok (WriteTransfer.wrote k)).1 ts).2) := by
            simp [writeRun, hcb]
          obtain ⟨⟨rem, hrem⟩, hmem⟩ := ih (WriteAction ep GrpcError.ok
            (WriteTransfer.wrote k)).1 cb
            (if k < slice.length then slice.drop k :: rest else rest) hA1cb hA1ws
          have harith2 : slice.take k ++
              (if k < slice.length then slice.drop k :: rest else rest).flatten =
              (slice :: rest).flatten := by
            by_cases hlt : k < slice.length
            · simp [hlt, List.flatten_cons, ← List.append_assoc, List.take_append_drop]
            · have htake : slice.take k = slice :=
                List.take_of_length_le (by omega)
              simp [hlt, htake]
          constructor
          · refine ⟨rem, ?_⟩
            rw [hrun, handedBytes_append, hA2]
            have h2 : slice.take k ++
                (handedBytes (writeRun (WriteAction ep GrpcError.ok
                  (WriteTransfer.wrote k)).1 ts).2 ++ rem) = (slice :: rest).flatten := by
              rw [hrem]
              exact harith2
            simpa [handedBytes, List.append_assoc] using h2
          · intro hm
            rw [hrun, hA2] at hm
            rcases List.mem_append.mp hm with hm2 | hm2
            · simp at hm2
            · have htail := hmem hm2
              rw [hrun, handedBytes_append, hA2]
              have h2 : slice.take k ++
                  handedBytes (writeRun (WriteAction ep GrpcError.ok
                    (WriteTransfer.wrote k)).1 ts).2 = (slice :: rest).flatten := by
                rw [htail]
                exact harith2
              simpa [handedBytes, List.append_assoc] using h2

/-- Claim C3: writes are fully ordered.  Each writable notification
hands the transport the front region (or what remains of it); a short
transfer puts the untransferred remainder back at the front of the
sequence, re-registers writable interest, does not invoke the callback
and retains the reference; a fully transferred region with bytes still
queued re-registers writable interest without invoking the callback;
the success callback is scheduled and the reference released exactly
when the sequence byte length reaches zero; and across a whole run the
bytes handed to the transport form an in-order prefix of the original
sequence, with success scheduled only once all bytes were handed
over. -/
theorem C3_write_ordered :
    (∀ ep cb slice rest k, ep.write_cb = some cb →
      ep.write_slices = some (slice :: rest) → k < slice.length →
      WriteAction ep GrpcError.ok (WriteTransfer.wrote k) =
        ({ refcount := ep.refcount, read_cb := ep.read_cb, write_cb := some cb,
           read_slices := ep.read_slices, write_slices := some (slice.drop k :: rest),
           peer_string := ep.peer_string, timer_armed := ep.timer_armed,
           total_bytes_read := ep.total_bytes_read },
         [Event.handToTransport (slice.take k), Event.notifyWrite])) ∧
    (∀ ep cb slice rest, ep.write_cb = some cb →
      ep.write_slices = some (slice :: rest) → 0 < bufLength rest →
      WriteAction ep GrpcError.ok (WriteTransfer.wrote slice.length) =
        ({ refcount := ep.refcount, read_cb := ep.read_cb, write_cb := some cb,
           read_slices := ep.read_slices, write_slices := some rest,
           peer_string := ep.peer_string, timer_armed := ep.timer_armed,
           total_bytes_read := ep.total_bytes_read },
         [Event.handToTransport slice, Event.notifyWrite])) ∧
    (∀ ep cb slice rest, ep.write_cb = some cb →
      ep.write_slices = some (slice :: rest) → bufLength rest = 0 →
      WriteAction ep GrpcError.ok (WriteTransfer.wrote slice.length) =
        ({ refcount := ep.refcount - 1, read_cb := ep.read_cb, write_cb := none,
           read_slices := ep.read_slices, write_slices := none,
           peer_string := ep.peer_string, timer_armed := ep.timer_armed,
           total_bytes_read := ep.total_bytes_read },
         [Event.handToTransport slice, Event.schedWrite cb GrpcError.ok] ++
           (if ep.refcount = 1 then [Event.unref, Event.free] else [Event.unref]))) ∧
    (∀ ts ep cb bufs, ep.write_cb = some cb → ep.write_slices = some bufs →
      (∃ rem, handedBytes (writeRun ep ts).2 ++ rem = bufs.flatten) ∧
      (Event.schedWrite cb GrpcError.ok ∈ (writeRun ep ts).2 →
        handedBytes (writeRun ep ts).2 = bufs.flatten)) := by
  refine ⟨?_, ?_, ?_, ?_⟩
  · intro ep cb slice rest k hcb hs hlt
    have hpos : 0 < bufLength (if k < slice.length then slice.drop k :: rest else rest) := by
      simp only [hlt, if_true, reduceIte, bufLength, List.map_cons, List.sum_cons,
        List.length_drop]
      omega
    rw [WriteAction_wrote_more_eq ep cb slice rest k hcb hs hpos]
    simp [hlt]
  · intro ep cb slice rest hcb hs hrest
    have hnlt : ¬ slice.length < slice.length := by omega
    have hpos : 0 < bufLength (if slice.length < slice.length then
        slice.drop slice.length :: rest else rest) := by
      simpa [hnlt] using hrest
    rw [WriteAction_wrote_more_eq ep cb slice rest slice.length hcb hs hpos]
    simp [hnlt, List.take_length]
  · intro ep cb slice rest hcb hs hrest
    have hnlt : ¬ slice.length < slice.length := by omega
    have hzero : bufLength (if slice.length < slice.length then
        slice.drop slice.length :: rest else rest) = 0 := by
      simpa [hnlt] using hrest
    rw [WriteAction_wrote_done_eq ep cb slice rest slice.length hcb hs hzero]
    simp [List.take_length]
  · intro ts ep cb bufs hcb hs
    exact writeRun_ordered ts ep cb bufs hcb hs

/-- A concrete endpoint with a pending two-region write. -/
def epC3 : CFStreamEndpoint :=
  { refcount := 2, read_cb := none, write_cb := some 5,
    read_slices := none, write_slices := some [[1, 2, 3], [4, 5]],
    peer_string := "ipv4:10.0.0.1:80", timer_armed := false,
    total_bytes_read := 0 }

/-- Witness for C3: a two-region write drained by a short transfer of 2
bytes, then 1 byte, then the final 2-byte region; the success callback
is scheduled and all 5 bytes were handed over in order. -/
theorem C3_witness :
    (epC3.write_cb = some 5 ∧ epC3.write_slices = some [[1, 2, 3], [4, 5]] ∧
     2 < ([1, 2, 3] : List Byte).length ∧
     WriteAction epC3 GrpcError.ok (WriteTransfer.wrote 2) =
       ({ refcount := epC3.refcount, read_cb := epC3.read_cb, write_cb := some 5,
          read_slices := epC3.read_slices,
          write_slices := some (([1, 2, 3] : List Byte).drop 2 :: [[4, 5]]),
          peer_string := epC3.peer_string, timer_armed := epC3.timer_armed,
          total_bytes_read := epC3.total_bytes_read },
        [Event.handToTransport (([1, 2, 3] : List Byte).take 2), Event.notifyWrite])) ∧
    ((∃ rem, handedBytes (writeRun epC3
        [WriteTransfer.wrote 2, WriteTransfer.wrote 1, WriteTransfer.wrote 2]).2 ++ rem =
        ([[1, 2, 3], [4, 5]] : List (List Byte)).flatten) ∧
     (Event.schedWrite 5 GrpcError.ok ∈ (writeRun epC3
        [WriteTransfer.wrote 2, WriteTransfer.wrote 1, WriteTransfer.wrote 2]).2 →
      handedBytes (writeRun epC3
        [WriteTransfer.wrote 2, WriteTransfer.wrote 1, WriteTransfer.wrote 2]).2 =
        ([[1, 2, 3], [4, 5]] : List (List Byte)).flatten)) ∧
    Event.schedWrite 5 GrpcError.ok ∈ (writeRun epC3
      [WriteTransfer.wrote 2, WriteTransfer.wrote 1, WriteTransfer.wrote 2]).2 :=
  ⟨⟨rfl, rfl, by decide,
    C3_write_ordered.1 epC3 5 [1, 2, 3] [[4, 5]] 2 rfl rfl (by decide)⟩,
   C3_write_ordered.2.2.2
     [WriteTransfer.wrote 2, WriteTransfer.wrote 1, WriteTransfer.wrote 2]
     epC3 5 [[1, 2, 3], [4, 5]] rfl rfl,
   by decide⟩

/-- A concrete endpoint with a pending read, used to exhibit the
unannotated transfer-failure error. -/
def epC4 : CFStreamEndpoint :=
  { refcount := 2, read_cb := some 3, write_cb := none, read_slices := some [8],
    write_slices := none, peer_string := "ipv4:127.0.0.1:443",
    timer_armed := false, total_bytes_read := 0 }

/-- Counterexample to C4 as stated: when the transport reports a
transfer failure but supplies no error object (CFReadStreamCopyError
returns null), the single delivered error is the static "Read error"
with no GRPC_STATUS_UNAVAILABLE attribute and no peer annotation. -/
theorem C4_counterexample :
    schedReadCount (ReadAction epC4 GrpcError.ok (ReadTransfer.streamErr none)).2 = 1 ∧
    Event.schedRead 3 (GrpcError.err "Read error" none none) (some []) ∈
      (ReadAction epC4 GrpcError.ok (ReadTransfer.streamErr none)).2 := by
  exact ⟨by decide, by decide⟩

/-- Claim C4 as amended: a transfer-failure error is annotated with the
peer description and GRPC_STATUS_UNAVAILABLE whenever the transport
supplies an error object; when it supplies none, the static
unannotated "Read error" / "write failed." error is delivered; the
zero-byte orderly-close error is always peer-annotated with
GRPC_STATUS_UNAVAILABLE; and on every failure path the endpoint
registers no new transport interest and requests no new buffer, i.e. it
never retries the failed transfer itself. -/
theorem C4_amended :
    (∀ ep cb len msg, ep.read_cb = some cb → ep.read_slices = some [len] →
      Event.schedRead cb (GrpcError.err ("Read error" ++ ": " ++ msg)
          (some GRPC_STATUS_UNAVAILABLE) (some ep.peer_string)) (some []) ∈
        (ReadAction ep GrpcError.ok (ReadTransfer.streamErr (some msg))).2 ∧
      (∀ n m, Event.allocSlices n m ∉
        (ReadAction ep GrpcError.ok (ReadTransfer.streamErr (some msg))).2) ∧
      Event.notifyRead ∉
        (ReadAction ep GrpcError.ok (ReadTransfer.streamErr (some msg))).2) ∧
    (∀ ep cb len, ep.read_cb = some cb → ep.read_slices = some [len] →
      Event.schedRead cb (GrpcError.err "Read error" none none) (some []) ∈
        (ReadAction ep GrpcError.ok (ReadTransfer.streamErr none)).2) ∧
    (∀ ep cb len, ep.read_cb = some cb → ep.read_slices = some [len] →
      Event.schedRead cb (GrpcError.err "Socket closed" (some GRPC_STATUS_UNAVAILABLE)
          (some ep.peer_string)) (some []) ∈
        (ReadAction ep GrpcError.ok (ReadTransfer.bytes 0)).2 ∧
      (∀ n m, Event.allocSlices n m ∉
        (ReadAction ep GrpcError.ok (ReadTransfer.bytes 0)).2) ∧
      Event.notifyRead ∉ (ReadAction ep GrpcError.ok (ReadTransfer.bytes 0)).2) ∧
    (∀ ep cb slice rest msg, ep.write_cb = some cb →
      ep.write_slices = some (slice :: rest) →
      Event.schedWrite cb (GrpcError.err ("write failed." ++ ": " ++ msg)
          (some GRPC_STATUS_UNAVAILABLE) (some ep.peer_string)) ∈
        (WriteAction ep GrpcError.ok (WriteTransfer.streamErr (some msg))).2 ∧
      Event.notifyWrite ∉
        (WriteAction ep GrpcError.ok (WriteTransfer.streamErr (some msg))).2) ∧
    (∀ ep cb slice rest, ep.write_cb = some cb →
      ep.write_slices = some (slice :: rest) →
      Event.schedWrite cb (GrpcError.err "write failed." none none) ∈
        (WriteAction ep GrpcError.ok (WriteTransfer.streamErr none)).2 ∧
      Event.notifyWrite ∉
        (WriteAction ep GrpcError.ok (WriteTransfer.streamErr none)).2) := by
  refine ⟨?_, ?_, ?_, ?_, ?_⟩
  · intro ep cb len msg hcb hbuf
    rw [ReadAction_streamErr_eq ep cb len (some msg) hcb hbuf]
    refine ⟨by simp, ?_, ?_⟩ <;>
      first
        | (intro n m
           by_cases hr : ep.refcount = 1 <;> by_cases ht : ep.timer_armed <;>
             simp [hr, ht])
        | (by_cases hr : ep.refcount = 1 <;> by_cases ht : ep.timer_armed <;>
             simp [hr, ht])
  · intro ep cb len hcb hbuf
    rw [ReadAction_streamErr_eq ep cb len none hcb hbuf]
    simp
  · intro ep cb len hcb hbuf
    rw [ReadAction_closed_eq ep cb len hcb hbuf]
    refine ⟨by simp, ?_, ?_⟩ <;>
      first
        | (intro n m
           by_cases hr : ep.refcount = 1 <;> by_cases ht : ep.timer_armed <;>
             simp [hr, ht])
        | (by_cases hr : ep.refcount = 1 <;> by_cases ht : ep.timer_armed <;>
             simp [hr, ht])
  · intro ep cb slice rest msg hcb hs
    rw [WriteAction_streamErr_eq ep cb slice rest (some msg) hcb hs]
    refine ⟨by simp, ?_⟩
    by_cases hr : ep.refcount = 1 <;> simp [hr]
  · intro ep cb slice rest hcb hs
    rw [WriteAction_streamErr_eq ep cb slice rest none hcb hs]
    refine ⟨by simp, ?_⟩
    by_cases hr : ep.refcount = 1 <;> simp [hr]

/-- Witness for C4 as amended: a transport-supplied error object gets
the peer annotation and the unavailable status; the orderly close
does too. -/
theorem C4_witness :
    (epC4.read_cb = some 3 ∧ epC4.read_slices = some [8] ∧
     Event.schedRead 3 (GrpcError.err ("Read error" ++ ": " ++ "reset by peer")
        (some GRPC_STATUS_UNAVAILABLE) (some epC4.peer_string)) (some []) ∈
       (ReadAction epC4 GrpcError.ok (ReadTransfer.streamErr (some "reset by peer"))).2 ∧
     (∀ n m, Event.allocSlices n m ∉
       (ReadAction epC4 GrpcError.ok (ReadTransfer.streamErr (some "reset by peer"))).2) ∧
     Event.notifyRead ∉
       (ReadAction epC4 GrpcError.ok (ReadTransfer.streamErr (some "reset by peer"))).2) ∧
    (Event.schedRead 3 (GrpcError.err "Socket closed" (some GRPC_STATUS_UNAVAILABLE)
        (some epC4.peer_string)) (some []) ∈
       (ReadAction epC4 GrpcError.ok (ReadTransfer.bytes 0)).2 ∧
     (∀ n m, Event.allocSlices n m ∉
       (ReadAction epC4 GrpcError.ok (ReadTransfer.bytes 0)).2) ∧
     Event.notifyRead ∉ (ReadAction epC4 GrpcError.ok (ReadTransfer.bytes 0)).2) :=
  ⟨⟨rfl, rfl, C4_amended.1 epC4 3 8 "reset by peer" rfl rfl⟩,
   C4_amended.2.2.1 epC4 3 8 rfl rfl⟩

theorem CallReadCb_timer (ep : CFStreamEndpoint) (e : GrpcError) :
    (CallReadCb ep e).1.timer_armed = ep.timer_armed := by
  unfold CallReadCb
  cases ep.read_cb <;> rfl

theorem EP_UNREF_timer (ep : CFStreamEndpoint) :
    (EP_UNREF ep).1.timer_armed = ep.timer_armed := rfl

theorem readActionBody_timer (ep : CFStreamEndpoint) (len : Nat) (t : ReadTransfer) :
    (readActionBody ep len t).1.timer_armed = ep.timer_armed := by
  cases t with
  | streamErr ce =>
    simp [readActionBody, EP_UNREF_timer, CallReadCb_timer]
  | bytes k =>
    by_cases hk : k = 0 <;> by_cases hlt : k < len <;>
      simp [readActionBody, hk, hlt, EP_UNREF_timer, CallReadCb_timer]

theorem timerCancel_not_mem_readActionBody (ep : CFStreamEndpoint) (len : Nat)
    (t : ReadTransfer) :
    Event.timerCancel ∉ (readActionBody ep len t).2 := by
  cases t with
  | streamErr ce =>
    cases hcb : ep.read_cb <;> by_cases hr : ep.refcount = 1 <;>
      simp [readActionBody, CallReadCb, EP_UNREF, hcb, hr]
  | bytes k =>
    cases hcb : ep.read_cb <;> by_cases hr : ep.refcount = 1 <;>
      by_cases hk : k = 0 <;> by_cases hlt : k < len <;>
      simp [readActionBody, CallReadCb, EP_UNREF, hcb, hr, hk, hlt]

/-- The shape of ReadAction on a readable notification without an
incoming error: the terminal-path events followed by the timer block
appended at the end. -/
theorem ReadAction_ok_shape (ep : CFStreamEndpoint) (cb len : Nat) (t : ReadTransfer)
    (hcb : ep.read_cb = some cb) (hbuf : ep.read_slices = some [len]) :
    ReadAction ep GrpcError.ok t =
      ((if (readActionBody ep len t).1.timer_armed then
          { (readActionBody ep len t).1 with timer_armed := false }
        else (readActionBody ep len t).1),
       (readActionBody ep len t).2 ++
         (if (readActionBody ep len t).1.timer_armed then [Event.timerCancel]
          else [])) := by
  unfold ReadAction
  simp only [hcb, hbuf, ne_eq, not_true_eq_false, if_false, reduceIte]
  by_cases hbt : (readActionBody ep len t).1.timer_armed <;> simp [hbt]

/-- A concrete endpoint with a pending read and an armed watchdog, hit
by a notifier-delivered error. -/
def epC5 : CFStreamEndpoint :=
  { refcount := 2, read_cb := some 4, write_cb := none, read_slices := some [8],
    write_slices := none, peer_string := "ipv4:127.0.0.1:443",
    timer_armed := true, total_bytes_read := 0 }

/-- Counterexample to C5 as stated: when the read completion action
runs with a notifier-delivered error, the completion callback is
scheduled, yet the armed watchdog is neither cancelled nor disarmed,
because the early return skips the timer block. -/
theorem C5_counterexample :
    epC5.timer_armed = true ∧
    schedReadCount (ReadAction epC5 (GrpcError.err "notifier error" none none)
      (ReadTransfer.bytes 1)).2 = 1 ∧
    (ReadAction epC5 (GrpcError.err "notifier error" none none)
      (ReadTransfer.bytes 1)).1.timer_armed = true ∧
    Event.timerCancel ∉ (ReadAction epC5 (GrpcError.err "notifier error" none none)
      (ReadTransfer.bytes 1)).2 := by
  exact ⟨rfl, by decide, by decide, by decide⟩

/-- Claim C5 as amended: when the read completion action runs with no
incoming notifier error, exactly one of the error, closed and success
terminal paths schedules the callback (exactly one schedRead event),
the watchdog ends disarmed, and when it was armed the cancel is the
last event of the trace, strictly after the callback was scheduled;
when the action runs with a non-null incoming error, the callback is
scheduled with that error but the timer block is skipped: no cancel
happens and the armed flag is left unchanged. -/
theorem C5_amended (ep : CFStreamEndpoint) (cb len : Nat) (e : GrpcError)
    (t : ReadTransfer)
    (hcb : ep.read_cb = some cb) (hbuf : ep.read_slices = some [len]) :
    (e = GrpcError.ok →
      schedReadCount (ReadAction ep e t).2 = 1 ∧
      (ReadAction ep e t).1.timer_armed = false ∧
      (ep.timer_armed = true →
        ∃ pre, (ReadAction ep e t).2 = pre ++ [Event.timerCancel] ∧
          schedReadCount pre = 1) ∧
      (ep.timer_armed = false →
        Event.timerCancel ∉ (ReadAction ep e t).2)) ∧
    (e ≠ GrpcError.ok →
      Event.schedRead cb e (some []) ∈ (ReadAction ep e t).2 ∧
      schedReadCount (ReadAction ep e t).2 = 1 ∧
      Event.timerCancel ∉ (ReadAction ep e t).2 ∧
      (ReadAction ep e t).1.timer_armed = ep.timer_armed) := by
  constructor
  · intro he
    subst he
    have hsched := schedReadCount_readActionBody ep cb len t hcb
    have hbody := readActionBody_timer ep len t
    have hnc := timerCancel_not_mem_readActionBody ep len t
    rw [ReadAction_ok_shape ep cb len t hcb hbuf]
    by_cases hbt : (readActionBody ep len t).1.timer_armed
    · have harm : ep.timer_armed = true := by rw [← hbody]; exact hbt
      refine ⟨?_, ?_, ?_, ?_⟩
      · simp [hbt, schedReadCount_append, hsched, schedReadCount]
      · simp [hbt]
      · intro _
        exact ⟨(readActionBody ep len t).2, by simp [hbt], hsched⟩
      · intro hfalse
        rw [harm] at hfalse
        cases hfalse
    · have harm : ep.timer_armed = false := by
        rw [← hbody]
        simpa using hbt
      refine ⟨?_, ?_, ?_, ?_⟩
      · simp [hbt, schedReadCount_append, hsched, schedReadCount]
      · rw [if_neg hbt, hbody, harm]
      · intro htrue
        rw [harm] at htrue
        cases htrue
      · intro _
        simp [hbt, hnc]
  · intro he
    rw [ReadAction_incoming_error_eq ep cb e t hcb he]
    refine ⟨by simp, ?_, ?_, rfl⟩
    · by_cases hr : ep.refcount = 1 <;>
        simp [hr, schedReadCount_append, schedReadCount]
    · by_cases hr : ep.refcount = 1 <;> simp [hr]

/-- Witness for C5 as amended, at a successful 2-byte transfer with the
watchdog armed and at a notifier-delivered error. -/
theorem C5_witness :
    epC5.read_cb = some 4 ∧ epC5.read_slices = some [8] ∧
    ((GrpcError.ok = GrpcError.ok →
      schedReadCount (ReadAction epC5 GrpcError.ok (ReadTransfer.bytes 2)).2 = 1 ∧
      (ReadAction epC5 GrpcError.ok (ReadTransfer.bytes 2)).1.timer_armed = false ∧
      (epC5.timer_armed = true →
        ∃ pre, (ReadAction epC5 GrpcError.ok (ReadTransfer.bytes 2)).2 =
            pre ++ [Event.timerCancel] ∧
          schedReadCount pre = 1) ∧
      (epC5.timer_armed = false →
        Event.timerCancel ∉ (ReadAction epC5 GrpcError.ok (ReadTransfer.bytes 2)).2)) ∧
     (GrpcError.ok ≠ GrpcError.ok →
      Event.schedRead 4 GrpcError.ok (some []) ∈
        (ReadAction epC5 GrpcError.ok (ReadTransfer.bytes 2)).2 ∧
      schedReadCount (ReadAction epC5 GrpcError.ok (ReadTransfer.bytes 2)).2 = 1 ∧
      Event.timerCancel ∉ (ReadAction epC5 GrpcError.ok (ReadTransfer.bytes 2)).2 ∧
      (ReadAction epC5 GrpcError.ok (ReadTransfer.bytes 2)).1.timer_armed =
        epC5.timer_armed)) :=
  ⟨rfl, rfl, C5_amended epC5 4 8 GrpcError.ok (ReadTransfer.bytes 2) rfl rfl⟩

theorem unrefEvCount_readActionBody (ep : CFStreamEndpoint) (len : Nat)
    (t : ReadTransfer) :
    unrefEvCount (readActionBody ep len t).2 = 1 := by
  cases t with
  | streamErr ce =>
    cases hcb : ep.read_cb <;> by_cases hr : ep.refcount = 1 <;>
      simp [readActionBody, CallReadCb, EP_UNREF, hcb, hr,
        unrefEvCount_append, unrefEvCount]
  | bytes k =>
    cases hcb : ep.read_cb <;> by_cases hr : ep.refcount = 1 <;>
      by_cases hk : k = 0 <;> by_cases hlt : k < len <;>
      simp [readActionBody, CallReadCb, EP_UNREF, hcb, hr, hk, hlt,
        unrefEvCount_append, unrefEvCount]

theorem refEvCount_readActionBody (ep : CFStreamEndpoint) (len : Nat)
    (t : ReadTransfer) :
    refEvCount (readActionBody ep len t).2 = 0 := by
  cases t with
  | streamErr ce =>
    cases hcb : ep.read_cb <;> by_cases hr : ep.refcount = 1 <;>
      simp [readActionBody, CallReadCb, EP_UNREF, hcb, hr,
        refEvCount_append, refEvCount]
  | bytes k =>
    cases hcb : ep.read_cb <;> by_cases hr : ep.refcount = 1 <;>
      by_cases hk : k = 0 <;> by_cases hlt : k < len <;>
      simp [readActionBody, CallReadCb, EP_UNREF, hcb, hr, hk, hlt,
        refEvCount_append, refEvCount]

/-- Counterexample to C6 as stated: issuing a read on a fresh endpoint
registers two asynchronous continuations (the watchdog timer closure
via grpc_timer_init, and the buffer-grant continuation via the slice
allocator) but acquires exactly one endpoint reference; and the timer
continuation err_cb releases no reference at either of its terminal
branches, so the watchdog timer callback holds no reference of its
own. -/
theorem C6_counterexample :
    (CFStreamRead (grpc_cfstream_endpoint_create "peer").1 0).1.refcount = 2 ∧
    Event.timerInit 60000 ∈
      (CFStreamRead (grpc_cfstream_endpoint_create "peer").1 0).2 ∧
    Event.allocSlices GRPC_TCP_DEFAULT_READ_SLICE_SIZE 1 ∈
      (CFStreamRead (grpc_cfstream_endpoint_create "peer").1 0).2 ∧
    refEvCount (CFStreamRead (grpc_cfstream_endpoint_create "peer").1 0).2 = 1 ∧
    (err_cb (CFStreamRead (grpc_cfstream_endpoint_create "peer").1 0).1
      GrpcError.ok).1.refcount = 2 ∧
    unrefEvCount (err_cb (CFStreamRead (grpc_cfstream_endpoint_create "peer").1 0).1
      GrpcError.ok).2 = 0 ∧
    (err_cb (CFStreamRead (grpc_cfstream_endpoint_create "peer").1 0).1
      (GrpcError.err "Cancelled" none none)).1.refcount = 2 ∧
    unrefEvCount (err_cb (CFStreamRead (grpc_cfstream_endpoint_create "peer").1 0).1
      (GrpcError.err "Cancelled" none none)).2 = 0 := by
  exact ⟨rfl, by decide, by decide, by decide, rfl, by decide, rfl, by decide⟩

/-- Claim C6 as amended: the read and the write each acquire exactly
one endpoint reference at issuance, carried by the buffer-grant and
readable/writable notifier continuation chain and released exactly once
at that chain's terminal branch (the completion action, or a failed
buffer grant); re-registration of writable interest carries the
reference forward without releasing it; the watchdog timer callback
holds no reference and releases none; and the endpoint is freed exactly
when a release drops the reference count to zero. -/
theorem C6_amended :
    (∀ ep cb, ep.read_cb = none →
      (CFStreamRead ep cb).1.refcount = ep.refcount + 1 ∧
      refEvCount (CFStreamRead ep cb).2 = 1 ∧
      unrefEvCount (CFStreamRead ep cb).2 = 0) ∧
    (∀ ep cb bufs, ep.write_cb = none →
      (CFStreamWrite ep cb bufs).1.refcount = ep.refcount + 1 ∧
      refEvCount (CFStreamWrite ep cb bufs).2 = 1 ∧
      unrefEvCount (CFStreamWrite ep cb bufs).2 = 0) ∧
    (∀ ep cb len e t, ep.read_cb = some cb → ep.read_slices = some [len] →
      unrefEvCount (ReadAction ep e t).2 = 1 ∧
      refEvCount (ReadAction ep e t).2 = 0) ∧
    (∀ ep e, e ≠ GrpcError.ok → ep.read_cb ≠ none →
      unrefEvCount (CFStreamReadAllocationDone ep e).2 = 1) ∧
    (∀ ep, CFStreamReadAllocationDone ep GrpcError.ok = (ep, [Event.notifyRead])) ∧
    (∀ ep cb slice rest e t, ep.write_cb = some cb →
      ep.write_slices = some (slice :: rest) →
      (e ≠ GrpcError.ok → unrefEvCount (WriteAction ep e t).2 = 1) ∧
      (∀ ce, unrefEvCount (WriteAction ep GrpcError.ok
        (WriteTransfer.streamErr ce)).2 = 1) ∧
      (∀ k, 0 < bufLength (if k < slice.length then slice.drop k :: rest else rest) →
        unrefEvCount (WriteAction ep GrpcError.ok (WriteTransfer.wrote k)).2 = 0 ∧
        (WriteAction ep GrpcError.ok (WriteTransfer.wrote k)).1.refcount = ep.refcount) ∧
      (∀ k, bufLength (if k < slice.length then slice.drop k :: rest else rest) = 0 →
        unrefEvCount (WriteAction ep GrpcError.ok (WriteTransfer.wrote k)).2 = 1)) ∧
    (∀ ep e, (err_cb ep e).1.refcount = ep.refcount ∧
      refEvCount (err_cb ep e).2 = 0 ∧ unrefEvCount (err_cb ep e).2 = 0) ∧
    (∀ ep, (Event.free ∈ (EP_UNREF ep).2 ↔ ep.refcount = 1)) := by
  refine ⟨?_, ?_, ?_, ?_, ?_, ?_, ?_, ?_⟩
  · intro ep cb hcb
    by_cases ht : ep.timer_armed <;>
      simp [CFStreamRead, EP_REF, hcb, ht, refEvCount_append, unrefEvCount_append,
        refEvCount, unrefEvCount]
  · intro ep cb bufs hcb
    simp [CFStreamWrite, EP_REF, hcb, refEvCount_append, unrefEvCount_append,
      refEvCount, unrefEvCount]
  · intro ep cb len e t hcb hbuf
    by_cases he : e = GrpcError.ok
    · subst he
      rw [ReadAction_ok_shape ep cb len t hcb hbuf]
      by_cases hbt : (readActionBody ep len t).1.timer_armed <;>
        simp [hbt, unrefEvCount_append, refEvCount_append, unrefEvCount, refEvCount,
          unrefEvCount_readActionBody, refEvCount_readActionBody]
    · rw [ReadAction_incoming_error_eq ep cb e t hcb he]
      by_cases hr : ep.refcount = 1 <;>
        simp [hr, unrefEvCount_append, refEvCount_append, unrefEvCount, refEvCount]
  · intro ep e he hcb
    cases hc : ep.read_cb with
    | none => exact absurd hc hcb
    | some cb =>
      simp [CFStreamReadAllocationDone, he, CallReadCb, EP_UNREF, hc,
        unrefEvCount_append, unrefEvCount]
      by_cases hr : ep.refcount = 1 <;> simp [hr, unrefEvCount]
  · intro ep
    simp [CFStreamReadAllocationDone]
  · intro ep cb slice rest e t hcb hs
    refine ⟨?_, ?_, ?_, ?_⟩
    · intro he
      rw [WriteAction_incoming_error_eq ep cb e t hcb he]
      by_cases hr : ep.refcount = 1 <;>
        simp [hr, unrefEvCount_append, unrefEvCount]
    · intro ce
      rw [WriteAction_streamErr_eq ep cb slice rest ce hcb hs]
      by_cases hr : ep.refcount = 1 <;>
        simp [hr, unrefEvCount_append, unrefEvCount]
    · intro k hpos
      rw [WriteAction_wrote_more_eq ep cb slice rest k hcb hs hpos]
      simp [unrefEvCount]
    · intro k hzero
      rw [WriteAction_wrote_done_eq ep cb slice rest k hcb hs hzero]
      by_cases hr : ep.refcount = 1 <;>
        simp [hr, unrefEvCount_append, unrefEvCount]
  · intro ep e
    by_cases he : e = GrpcError.ok <;>
      simp [err_cb, he, refEvCount, unrefEvCount]
  · intro ep
    by_cases hr : ep.refcount = 1 <;> simp [EP_UNREF, hr]

/-- Witness for C6 as amended: a fresh endpoint, one read issued, the
timer callback, and the unref-to-zero boundary. -/
theorem C6_witness :
    (epCreated.read_cb = none ∧
     (CFStreamRead epCreated 0).1.refcount = epCreated.refcount + 1 ∧
     refEvCount (CFStreamRead epCreated 0).2 = 1 ∧
     unrefEvCount (CFStreamRead epCreated 0).2 = 0) ∧
    (epSampleRead.read_cb = some 1 ∧ epSampleRead.read_slices = some [64] ∧
     unrefEvCount (ReadAction epSampleRead GrpcError.ok (ReadTransfer.bytes 3)).2 = 1 ∧
     refEvCount (ReadAction epSampleRead GrpcError.ok (ReadTransfer.bytes 3)).2 = 0) ∧
    ((err_cb epSampleRead GrpcError.ok).1.refcount = epSampleRead.refcount ∧
     refEvCount (err_cb epSampleRead GrpcError.ok).2 = 0 ∧
     unrefEvCount (err_cb epSampleRead GrpcError.ok).2 = 0) ∧
    (Event.free ∈ (EP_UNREF epCreated).2 ↔ epCreated.refcount = 1) :=
  ⟨⟨rfl, C6_amended.1 epCreated 0 rfl⟩,
   ⟨rfl, rfl, C6_amended.2.2.1 epSampleRead 1 64 GrpcError.ok
     (ReadTransfer.bytes 3) rfl rfl⟩,
   C6_amended.2.2.2.2.2.2.1 epSampleRead GrpcError.ok,
   C6_amended.2.2.2.2.2.2.2 epCreated⟩

/-- Claim C7: shutdown cancels the watchdog and clears the armed flag
exactly when it was armed, closes both transport directions, forwards
the shutdown reason to the stream notifier and shuts down the resource
accounting context; it takes and drops no endpoint reference, never
frees the endpoint, and leaves the callback slots, buffers, byte
counter, refcount and peer string unchanged. -/
theorem C7_shutdown (ep : CFStreamEndpoint) (why : GrpcError) :
    (CFStreamShutdown ep why).1.timer_armed = false ∧
    (Event.timerCancel ∈ (CFStreamShutdown ep why).2 ↔ ep.timer_armed = true) ∧
    Event.closeRead ∈ (CFStreamShutdown ep why).2 ∧
    Event.closeWrite ∈ (CFStreamShutdown ep why).2 ∧
    Event.notifierShutdown why ∈ (CFStreamShutdown ep why).2 ∧
    Event.resourceShutdown ∈ (CFStreamShutdown ep why).2 ∧
    refEvCount (CFStreamShutdown ep why).2 = 0 ∧
    unrefEvCount (CFStreamShutdown ep why).2 = 0 ∧
    Event.free ∉ (CFStreamShutdown ep why).2 ∧
    (CFStreamShutdown ep why).1.refcount = ep.refcount ∧
    (CFStreamShutdown ep why).1.read_cb = ep.read_cb ∧
    (CFStreamShutdown ep why).1.write_cb = ep.write_cb ∧
    (CFStreamShutdown ep why).1.read_slices = ep.read_slices ∧
    (CFStreamShutdown ep why).1.write_slices = ep.write_slices ∧
    (CFStreamShutdown ep why).1.total_bytes_read = ep.total_bytes_read ∧
    (CFStreamShutdown ep why).1.peer_string = ep.peer_string := by
  unfold CFStreamShutdown
  by_cases ht : ep.timer_armed <;>
    simp [ht, refEvCount_append, unrefEvCount_append, refEvCount, unrefEvCount]

/-- Claim C8: issuing a read arms the watchdog with the 60000
millisecond (60 second) deadline exactly when it was not already armed,
leaving an armed watchdog untouched; on expiry with no cancellation the
timer callback performs the diagnostic transport read, clears the armed
flag under the mutex, flushes the notifier queue, and unconditionally
aborts the process, in that order. -/
theorem C8_watchdog (ep : CFStreamEndpoint) (cb : Nat)
    (hcb : ep.read_cb = none) :
    (ep.timer_armed = false →
      (CFStreamRead ep cb).1.timer_armed = true ∧
      Event.timerInit 60000 ∈ (CFStreamRead ep cb).2 ∧
      Event.allocSlices GRPC_TCP_DEFAULT_READ_SLICE_SIZE 1 ∈ (CFStreamRead ep cb).2) ∧
    (ep.timer_armed = true →
      (CFStreamRead ep cb).1.timer_armed = true ∧
      (∀ d, Event.timerInit d ∉ (CFStreamRead ep cb).2)) ∧
    (err_cb ep GrpcError.ok).2 =
      [Event.diagRead, Event.runOnQueue, Event.abortCall] ∧
    (err_cb ep GrpcError.ok).1.timer_armed = false := by
  refine ⟨?_, ?_, ?_, ?_⟩
  · intro ht
    simp [CFStreamRead, EP_REF, hcb, ht]
  · intro ht
    simp [CFStreamRead, EP_REF, hcb, ht]
  · simp [err_cb]
  · simp [err_cb]

/-- Witness for C8 on a fresh endpoint (watchdog disarmed) and on an
endpoint whose watchdog is already armed. -/
theorem C8_witness :
    (epCreated.read_cb = none ∧
     (epCreated.timer_armed = false →
       (CFStreamRead epCreated 0).1.timer_armed = true ∧
       Event.timerInit 60000 ∈ (CFStreamRead epCreated 0).2 ∧
       Event.allocSlices GRPC_TCP_DEFAULT_READ_SLICE_SIZE 1 ∈
         (CFStreamRead epCreated 0).2) ∧
     (err_cb epCreated GrpcError.ok).2 =
       [Event.diagRead, Event.runOnQueue, Event.abortCall] ∧
     (err_cb epCreated GrpcError.ok).1.timer_armed = false) ∧
    (epCreated.timer_armed = false ∧ (CFStreamRead epCreated 0).1.timer_armed = true) :=
  ⟨⟨rfl, (C8_watchdog epCreated 0 rfl).1,
    (C8_watchdog epCreated 0 rfl).2.2.1, (C8_watchdog epCreated 0 rfl).2.2.2⟩,
   rfl, ((C8_watchdog epCreated 0 rfl).1 rfl).1⟩

/-- Claim C9: creation returns an endpoint with refcount exactly 1,
watchdog disarmed, byte counter 0 and empty pending-callback and buffer
slots, retaining both transport streams, taking a notifier handle
reference, duplicating the peer string and creating the resource
accounting context; destroy is exactly one reference release, and the
endpoint is freed exactly when the count reaches zero. -/
theorem C9_create_destroy :
    (∀ peer, (grpc_cfstream_endpoint_create peer).1 =
      { refcount := 1, read_cb := none, write_cb := none, read_slices := none,
        write_slices := none, peer_string := peer, timer_armed := false,
        total_bytes_read := 0 } ∧
      (grpc_cfstream_endpoint_create peer).2 =
        [Event.retainReadStream, Event.retainWriteStream, Event.notifierRef,
         Event.dupPeer, Event.resourceCreate]) ∧
    (∀ ep, CFStreamDestroy ep = EP_UNREF ep ∧
      (CFStreamDestroy ep).1.refcount = ep.refcount - 1 ∧
      unrefEvCount (CFStreamDestroy ep).2 = 1 ∧
      (Event.free ∈ (CFStreamDestroy ep).2 ↔ ep.refcount = 1)) := by
  refine ⟨fun peer => ⟨rfl, rfl⟩, fun ep => ⟨rfl, rfl, ?_, ?_⟩⟩ <;>
    (unfold CFStreamDestroy
     by_cases hr : ep.refcount = 1 <;> simp [EP_UNREF, hr, unrefEvCount])

/-- Claim C10: a watchdog timer callback invoked with a non-null error
(the timer was cancelled by read completion or shutdown rather than
firing) returns immediately: the endpoint state is untouched, no
diagnostic read happens, and the process is not aborted, so the fatal
watchdog path cannot be triggered by a cancelled timer. -/
theorem C10_cancelled_timer_noop (ep : CFStreamEndpoint) (e : GrpcError)
    (he : e ≠ GrpcError.ok) :
    err_cb ep e = (ep, []) ∧
    Event.diagRead ∉ (err_cb ep e).2 ∧
    Event.abortCall ∉ (err_cb ep e).2 ∧
    (err_cb ep e).1.timer_armed = ep.timer_armed := by
  have h : err_cb ep e = (ep, []) := by simp [err_cb, he]
  refine ⟨h, ?_, ?_, ?_⟩ <;> simp [h]

/-- Witness for C10 at the cancellation error. -/
theorem C10_witness :
    (GrpcError.err "Timer cancelled" none none ≠ GrpcError.ok) ∧
    (err_cb epSampleRead (GrpcError.err "Timer cancelled" none none) =
      (epSampleRead, []) ∧
     Event.diagRead ∉
       (err_cb epSampleRead (GrpcError.err "Timer cancelled" none none)).2 ∧
     Event.abortCall ∉
       (err_cb epSampleRead (GrpcError.err "Timer cancelled" none none)).2 ∧
     (err_cb epSampleRead (GrpcError.err "Timer cancelled" none none)).1.timer_armed =
       epSampleRead.timer_armed) :=
  ⟨by decide,
   C10_cancelled_timer_noop epSampleRead (GrpcError.err "Timer cancelled" none none)
     (by decide)⟩
